import Mathlib

/-!
Shallow embedding of the capture-dispatch-response core of the
AI screenshot assistant (`main.py`, class `AIAssistantApp`), together with
theorems settling the specification claims about it.

Conventions of the embedding:
* Python byte strings (encoded screenshots) are `Image := List Nat`
  (a byte buffer; `len` is `List.length`).
* Python text strings that participate in the string-prefix outcome
  protocol are `Str := List Char` (Python `s.startswith(p)` is
  `p.isPrefixOf s`, concatenation is `++`, truthiness is `≠ []`).
* Qt signal emissions and UI collaborator calls are recorded as values in
  action lists; collaborator calls that may raise (`capture_screen`,
  `ScreenshotSelector.start_capture`, provider `analyze_images`) are
  passed in as `Except` values describing the collaborator's behaviour.
* Values read from the configuration collaborator (`provider`,
  `MAX_SCREENSHOT_HISTORY`, `SCREENSHOT_MODE["use_selector"]`, the prompts
  list, `current_prompt_index`) are parameters of the functions that read
  them; configuration writes appear in the result.
All functions are total: a Python `try`/`except` that swallows an
exception is embedded by returning the post-handler state, while an
exception that escapes a function is an `Except.error` result.
-/

/-- Byte buffer of one captured screenshot (Python `bytes`). -/
abbrev Image := List Nat

/-- Python text string, as its character list. -/
abbrev Str := List Char

/-- One prompt entry of the configured prompts list
(`{name, hotkey, content}`; the hotkey is never read by the core). -/
structure Prompt where
  name : String
  content : Str
deriving DecidableEq, Repr

/-- One dispatched provider request: the argument triple handed to
`_start_async_api_request(all_images, prompt, provider)`. -/
structure Dispatch where
  images : List Image
  prompt : Prompt
  provider : String
deriving DecidableEq, Repr

/-- The mutable coordinator state of `AIAssistantApp` that the claims are
about: `self.pending_prompt` and `self.screenshot_history`. -/
structure AppState where
  pending : Option Prompt
  history : List Image
deriving DecidableEq, Repr

/-- Cross-thread Qt signal emissions
(`trigger_screenshot_signal.emit(with_prompt)`). -/
inductive Signal where
  | triggerScreenshot (withPrompt : Bool)
deriving DecidableEq, Repr

/-- Result of one coordinator step: the new state, the signals it emitted,
and the provider dispatch it started (if any). -/
structure StepResult where
  state : AppState
  signals : List Signal
  dispatch : Option Dispatch
deriving DecidableEq, Repr

/-- Embedding of `AIAssistantApp.save_screenshot_to_history` (main.py
1855-1875). The bound `hmax` is the constant `MAX_SCREENSHOT_HISTORY`
from `ai_assistant.utils.constants` (module not under `src/`), kept as a
parameter. If the history already holds `hmax` or more images the oldest
is popped first (`pop(0)` on an empty list raises `IndexError`, which the
surrounding `except` swallows, so the append never runs in that case);
then the new image is appended. -/
def save_screenshot_to_history (hmax : Nat) (history : List Image) (png : Image) :
    List Image :=
  if hmax ≤ history.length then
    match history with
    | [] => []
    | _ :: rest => rest ++ [png]
  else history ++ [png]

/-- Folding `save_screenshot_to_history` over a sequence of captures,
starting from the store's initial state `[]` (main.py 93,
`self.screenshot_history = []`). -/
def save_all (hmax : Nat) (xs : List Image) : List Image :=
  xs.foldl (save_screenshot_to_history hmax) []

/-- Embedding of `AIAssistantApp.clear_screenshot_history` (main.py
1765-1787). Returns the new history and the size-delta report the
nonempty branch logs (count of cleared images, total bytes released);
on an empty history the function returns early with no report. -/
def clear_screenshot_history (history : List Image) :
    List Image × Option (Nat × Nat) :=
  if history = [] then (history, none)
  else ([], some (history.length, (history.map List.length).sum))

/-- Embedding of `AIAssistantApp._cleanup_screenshot_history` (main.py
1938-1956), the post-request cleanup scheduled onto the main thread; same
shape as `clear_screenshot_history` (early return on empty, otherwise
clear and report the released count and bytes). -/
def cleanup_screenshot_history (history : List Image) :
    List Image × Option (Nat × Nat) :=
  if history = [] then (history, none)
  else ([], some (history.length, (history.map List.length).sum))

/-- Embedding of `AIAssistantApp.handle_toggle_provider` (main.py
1643-1671): reads the configured provider, switches `"Gemini"` to
`"GPT"` and anything else to `"Gemini"`, and persists the result. The
returned string is both the new in-memory and the persisted value. -/
def handle_toggle_provider (current : String) : String :=
  if current = "Gemini" then "GPT" else "Gemini"

/-- Embedding of `AIAssistantApp.process_prompt_with_screenshot` (main.py
1877-1901): builds `all_images = self.screenshot_history + [current_png]`,
reads the provider fresh from configuration (the `provider` parameter) and
starts the background request with that triple. The state is returned
unchanged — in particular nothing is appended to the history here. -/
def process_prompt_with_screenshot (provider : String) (s : AppState)
    (current_png : Image) (prompt : Prompt) : AppState × Option Dispatch :=
  (s, some { images := s.history ++ [current_png], prompt := prompt,
             provider := provider })

/-- Embedding of `AIAssistantApp.on_screenshot_taken` (main.py 1808-1819),
the interactive-capture success callback: if a prompt is pending, the
request is dispatched via `process_prompt_with_screenshot` and only then
is `pending_prompt` cleared; with no pending prompt nothing happens. -/
def on_screenshot_taken (provider : String) (png : Image) (s : AppState) :
    AppState × Option Dispatch :=
  match s.pending with
  | some p =>
    match process_prompt_with_screenshot provider s png p with
    | (s1, d) => ({ s1 with pending := none }, d)
  | none => (s, none)

/-- Embedding of `AIAssistantApp.trigger_prompt` (main.py 2001-2019).
With the selector enabled (`SCREENSHOT_MODE["use_selector"]`, constants
module not under `src/`, kept as the parameter `use_selector`) it
unconditionally stores the prompt in `pending_prompt` and emits
`trigger_screenshot_signal(True)`; otherwise it captures immediately
(`cap` is the `capture_screen()` behaviour: the `except` swallows its
failure) and dispatches directly. -/
def trigger_prompt (use_selector : Bool) (provider : String)
    (cap : Except Str Image) (prompt : Prompt) (s : AppState) : StepResult :=
  if use_selector then
    { state := { s with pending := some prompt },
      signals := [.triggerScreenshot true], dispatch := none }
  else
    match cap with
    | .ok png =>
      match process_prompt_with_screenshot provider s png prompt with
      | (s1, d) => { state := s1, signals := [], dispatch := d }
    | .error _ => { state := s, signals := [], dispatch := none }

/-- Embedding of `AIAssistantApp.capture_screenshot_only` (main.py
1612-1627). With the selector enabled it unconditionally overwrites
`pending_prompt` with `None` (capture-only marker) and emits
`trigger_screenshot_signal(False)`; otherwise it captures immediately and
appends to the history (a capture failure is swallowed and logged). -/
def capture_screenshot_only (use_selector : Bool) (hmax : Nat)
    (cap : Except Str Image) (s : AppState) : StepResult :=
  if use_selector then
    { state := { s with pending := none },
      signals := [.triggerScreenshot false], dispatch := none }
  else
    match cap with
    | .ok png =>
      { state := { s with
          history := save_screenshot_to_history hmax s.history png },
        signals := [], dispatch := none }
    | .error _ => { state := s, signals := [], dispatch := none }

/-- Result of one `start_smart_screenshot` / `start_smart_screenshot_only`
call: the outcome (`Except.error` when an exception escapes the method)
and how many synchronous fallback `capture_screen()` calls were made. -/
structure ShotResult where
  outcome : Except Str StepResult
  captureCalls : Nat
deriving Repr

/-- Embedding of `AIAssistantApp.start_smart_screenshot` (main.py
1789-1806). `selStart` is the behaviour of creating and starting the
interactive `ScreenshotSelector`; on its failure the handler logs and, if
a prompt is pending, falls back once to the synchronous
`capture_screen()` (`cap`). That fallback call sits inside the `except`
block, so its own exception escapes the method; on fallback success the
request is dispatched with `pending_prompt` left untouched. -/
def start_smart_screenshot (provider : String) (selStart : Except Str Unit)
    (cap : Except Str Image) (s : AppState) : ShotResult :=
  match selStart with
  | .ok _ =>
    { outcome := .ok { state := s, signals := [], dispatch := none },
      captureCalls := 0 }
  | .error _ =>
    match s.pending with
    | some p =>
      match cap with
      | .ok png =>
        match process_prompt_with_screenshot provider s png p with
        | (s1, d) =>
          { outcome := .ok { state := s1, signals := [], dispatch := d },
            captureCalls := 1 }
      | .error e => { outcome := .error e, captureCalls := 1 }
    | none =>
      { outcome := .ok { state := s, signals := [], dispatch := none },
        captureCalls := 0 }

/-- Embedding of `AIAssistantApp.start_smart_screenshot_only` (main.py
1832-1842): like `start_smart_screenshot` but the fallback is
unconditional and saves to the history instead of dispatching; here too
the fallback `capture_screen()` runs inside the `except` block, so its own
exception escapes the method. -/
def start_smart_screenshot_only (hmax : Nat) (selStart : Except Str Unit)
    (cap : Except Str Image) (s : AppState) : ShotResult :=
  match selStart with
  | .ok _ =>
    { outcome := .ok { state := s, signals := [], dispatch := none },
      captureCalls := 0 }
  | .error _ =>
    match cap with
    | .ok png =>
      let s1 : AppState :=
        { s with history := save_screenshot_to_history hmax s.history png }
      { outcome := .ok { state := s1, signals := [], dispatch := none },
        captureCalls := 1 }
    | .error e => { outcome := .error e, captureCalls := 1 }

/-- Behaviour of the provider collaborators consulted by one run of the
background worker: `ai_factory.get_service(provider)` may raise, and the
returned service's `analyze_images(all_images, prompt["content"])` may
raise or return a (possibly empty) markdown string. -/
inductive ProviderBehavior where
  | getServiceRaises (msg : Str)
  | analyzeRaises (msg : Str)
  | analyzeReturns (md : Str)
deriving DecidableEq, Repr

/-- Observable effects of one `_async_api_worker` run: the strings emitted
on `api_response_signal`, how often `analyze_images` was invoked, and how
many history cleanups were scheduled onto the main thread (the `finally`
block's `QTimer.singleShot(0, self._cleanup_screenshot_history)`). -/
structure WorkerRun where
  emitted : List Str
  analyzeCalls : Nat
  cleanupsScheduled : Nat
deriving DecidableEq, Repr

/-- Embedding of `AIAssistantApp._async_api_worker` (main.py 1913-1936):
a truthy result is emitted as-is, an empty result is emitted as the fixed
no-response message, and any exception from `get_service` or
`analyze_images` is caught, logged and emitted as
`"错误: API调用异常: " + str(e)`; the `finally` block always schedules
exactly one history cleanup. The function is total: no exception escapes
the worker. -/
def async_api_worker (b : ProviderBehavior) : WorkerRun :=
  match b with
  | .getServiceRaises m =>
    { emitted := ["错误: API调用异常: ".data ++ m], analyzeCalls := 0,
      cleanupsScheduled := 1 }
  | .analyzeRaises m =>
    { emitted := ["错误: API调用异常: ".data ++ m], analyzeCalls := 1,
      cleanupsScheduled := 1 }
  | .analyzeReturns md =>
    { emitted := [if md = [] then "API调用失败，未获得响应".data else md],
      analyzeCalls := 1, cleanupsScheduled := 1 }

/-- Actions of the main-thread response handler, in execution order. -/
inductive RespAction where
  | logError (msg : Str)
  | renderError (msg : Str)
  | clipboardWrite (code : Str)
  | render (text : Str)
deriving DecidableEq, Repr

/-- Embedding of `AIAssistantApp.handle_api_response` (main.py
1726-1763), the `api_response_signal` slot. A response starting with
`"错误:"` is logged at ERROR level and rendered as an error paragraph,
and the method returns before any code extraction; otherwise
`extract_code_blocks` (from `ai_assistant.utils.screenshot`, not under
`src/`, passed in as `extract`) runs, a nonempty extract is written to the
clipboard, and the markdown-rendered response is shown. -/
def handle_api_response (extract : Str → Str) (response : Str) :
    List RespAction :=
  if "错误:".data.isPrefixOf response then
    [.logError response, .renderError response]
  else
    (if extract response ≠ [] then [.clipboardWrite (extract response)]
     else []) ++ [.render response]

/-- Actions of the streaming-response path, in execution order. -/
inductive StreamAction where
  | chunkEmit (t : Str)
  | finishStream
  | processComplete (t : Str)
  | extractClipboard (t : Str)
deriving DecidableEq, Repr

/-- Embedding of the loop of `AIAssistantApp._handle_streaming_response`
(main.py 1958-1991) with accumulator `full` (`full_response`): every
non-final chunk is appended to the accumulator and emitted to the overlay
(`content_chunk`), and the first completion tick finishes the stream,
hands the accumulated text to `_process_complete_response` exactly once
and breaks out (later stream items are never read). Returns the action
list and the finalized text (`none` when the stream ends without a
completion signal). -/
def handle_streaming_response :
    List (Str × Bool) → Str → List StreamAction × Option Str
  | [], _ => ([], none)
  | (_, true) :: _, full => ([.finishStream, .processComplete full], some full)
  | (t, false) :: rest, full =>
    match handle_streaming_response rest (full ++ t) with
    | (as, fin) => (.chunkEmit t :: as, fin)

/-- Modelled from the spec: the code-block extraction and single clipboard
write for a streamed response. `_process_complete_response` (main.py
1993-1999) performs no copy itself and its comment says the copy is
handled by the main streaming flow, which is not under `src/`; per the
spec it runs exactly once, after the stream's completion signal. -/
def streaming_flow (stream : List (Str × Bool)) : List StreamAction :=
  match handle_streaming_response stream [] with
  | (as, some fin) => as ++ [.extractClipboard fin]
  | (as, none) => as

/-- Embedding of `AIAssistantApp.send_current_prompt` (main.py
1698-1724). Inputs are the configured prompts list and the in-memory
`current_prompt_index` (a Python int, hence `Int`); the result is the new
in-memory index, the value written to the persisted
`current_prompt_index` configuration key (if any), and the prompt handed
to `trigger_prompt` (if any). An empty prompts list returns early; an
out-of-range index is reset to 0 in memory and in configuration and the
first prompt is sent. -/
def send_current_prompt (prompts : List Prompt) (idx : Int) :
    Int × Option Int × Option Prompt :=
  if prompts = [] then (idx, none, none)
  else if 0 ≤ idx ∧ idx < prompts.length then
    (idx, none, prompts[idx.toNat]?)
  else (0, some 0, prompts[0]?)

/-- Embedding of `AIAssistantApp.update_current_prompt_display` (main.py
1415-1444), same shape as `send_current_prompt`: returns the new
in-memory index, the configuration write (this method performs none —
the out-of-range branch resets only `self.current_prompt_index`), and the
prompt whose name is displayed. -/
def update_current_prompt_display (prompts : List Prompt) (idx : Int) :
    Int × Option Int × Option Prompt :=
  if prompts = [] then (idx, none, none)
  else if 0 ≤ idx ∧ idx < prompts.length then
    (idx, none, prompts[idx.toNat]?)
  else (0, none, prompts[0]?)

/-- Step lemma for the history bound: one save applied to the last-`hmax`
suffix of `xs` yields the last-`hmax` suffix of `xs ++ [a]`. -/
theorem save_drop_step (hmax : Nat) (xs : List Image) (a : Image) :
    save_screenshot_to_history hmax (xs.drop (xs.length - hmax)) a
      = (xs ++ [a]).drop (xs.length + 1 - hmax) := by
  rcases Nat.lt_or_ge xs.length hmax with hlt | hge
  · have h0 : xs.length - hmax = 0 := Nat.sub_eq_zero_of_le (Nat.le_of_lt hlt)
    have h1 : xs.length + 1 - hmax = 0 := Nat.sub_eq_zero_of_le hlt
    simp only [h0, List.drop_zero, h1]
    rw [save_screenshot_to_history.eq_def, if_neg (by omega)]
  · have hlen : (xs.drop (xs.length - hmax)).length = hmax := by
      rw [List.length_drop]
      omega
    rcases Nat.eq_zero_or_pos hmax with h0 | hpos
    · subst h0
      have : xs.drop (xs.length - 0) = [] := by
        simp [List.drop_length]
      rw [this, save_screenshot_to_history.eq_def, if_pos (Nat.zero_le _)]
      have : xs.length + 1 - 0 = (xs ++ [a]).length := by simp
      rw [this, List.drop_length]
    · rcases hh : xs.drop (xs.length - hmax) with _ | ⟨c, t⟩
      · rw [hh] at hlen
        simp at hlen
        omega
      · rw [save_screenshot_to_history.eq_def, if_pos (by rw [hh] at hlen; simp [hh, hlen])]
        have ht : t = xs.drop (xs.length - hmax + 1) := by
          have := List.tail_drop xs (xs.length - hmax)
          rw [hh] at this
          simpa using this
        have harith : xs.length - hmax + 1 = xs.length + 1 - hmax := by omega
        have hle : xs.length + 1 - hmax ≤ xs.length := by omega
        rw [List.drop_append_of_le_length hle, ht, harith]

/-- The full history after any capture sequence is exactly the final
suffix of length at most `hmax`, in capture order. -/
theorem save_all_eq_drop (hmax : Nat) (xs : List Image) :
    save_all hmax xs = xs.drop (xs.length - hmax) := by
  induction xs using List.reverseRecOn with
  | nil => simp [save_all]
  | append_singleton ys a ih =>
    have : save_all hmax (ys ++ [a])
        = save_screenshot_to_history hmax (save_all hmax ys) a := by
      simp [save_all, List.foldl_append]
    rw [this, ih, save_drop_step]
    simp

/-- Helper: the worker's exception message always carries the orchestrator's
error marker prefix. -/
theorem err_marker_isPrefixOf (m : Str) :
    "错误:".data.isPrefixOf ("错误: API调用异常: ".data ++ m) = true := by
  rw [List.isPrefixOf_iff_prefix]
  have h : ("错误: API调用异常: ".data : Str)
      = "错误:".data ++ " API调用异常: ".data := rfl
  rw [h, List.append_assoc]
  exact List.prefix_append _ _

/-- Helper: unrolling the streaming loop over the chunks that precede the
first completion tick, with an arbitrary accumulator. -/
theorem handle_streaming_append (cs : List Str) (t : Str)
    (rest : List (Str × Bool)) (acc : Str) :
    handle_streaming_response
        (cs.map (fun c => (c, false)) ++ (t, true) :: rest) acc
      = (cs.map StreamAction.chunkEmit
          ++ [.finishStream, .processComplete (acc ++ cs.flatten)],
         some (acc ++ cs.flatten)) := by
  induction cs generalizing acc with
  | nil => simp [handle_streaming_response]
  | cons c cs ih =>
    simp [handle_streaming_response, ih (acc ++ c), List.append_assoc]

/-- Counterexample for C1: the claim says a second capture request while
one is pending is rejected with the first request's state unchanged.
In the code `trigger_prompt` has no pending-gate: the second call
overwrites `pending_prompt` with the new prompt and emits the capture
signal again. -/
theorem c1_counterexample :
    (trigger_prompt true "Gemini" (.ok [0]) ⟨"one", ['a']⟩
        ⟨none, []⟩).state.pending = some ⟨"one", ['a']⟩ ∧
    (trigger_prompt true "Gemini" (.ok [0]) ⟨"two", ['b']⟩
        ⟨some ⟨"one", ['a']⟩, []⟩).state.pending = some ⟨"two", ['b']⟩ ∧
    (trigger_prompt true "Gemini" (.ok [0]) ⟨"two", ['b']⟩
        ⟨some ⟨"one", ['a']⟩, []⟩).state.pending ≠ some ⟨"one", ['a']⟩ ∧
    (trigger_prompt true "Gemini" (.ok [0]) ⟨"two", ['b']⟩
        ⟨some ⟨"one", ['a']⟩, []⟩).signals = [.triggerScreenshot true] := by
  refine ⟨rfl, rfl, ?_, rfl⟩
  decide

/-- Claim C1 (amended): there is no at-most-one-pending gate. A capture
request issued while another is pending is not rejected: `trigger_prompt`
unconditionally overwrites `pending_prompt` with the new prompt and emits
the capture signal, and `capture_screenshot_only` unconditionally
overwrites it with the capture-only marker `None`. -/
theorem c1_pending_overwritten (provider : String) (hmax : Nat)
    (cap : Except Str Image) (p : Prompt) (s : AppState) :
    trigger_prompt true provider cap p s =
      { state := { s with pending := some p },
        signals := [.triggerScreenshot true], dispatch := none } ∧
    capture_screenshot_only true hmax cap s =
      { state := { s with pending := none },
        signals := [.triggerScreenshot false], dispatch := none } :=
  ⟨rfl, rfl⟩

/-- Claim C2: after any capture sequence (from the store's initial empty
state) the history is exactly the last `min(n, hmax)` appended images in
append order, hence its length never exceeds `hmax`; one append from any
state within the bound stays within the bound; and with `hmax = 3`,
appending A, B, C, D leaves exactly [B, C, D]. -/
theorem c2_history_bounded_fifo (hmax : Nat) (xs : List Image) :
    save_all hmax xs = xs.drop (xs.length - hmax) ∧
    (save_all hmax xs).length ≤ hmax ∧
    (∀ h x, h.length ≤ hmax →
      (save_screenshot_to_history hmax h x).length ≤ hmax) ∧
    (∀ a b c d : Image, save_all 3 [a, b, c, d] = [b, c, d]) := by
  refine ⟨save_all_eq_drop hmax xs, ?_, ?_, ?_⟩
  · rw [save_all_eq_drop, List.length_drop]
    omega
  · intro h x hle
    rw [save_screenshot_to_history.eq_def]
    split
    · cases h with
      | nil => simp
      | cons c t => simp_all
    · simp only [List.length_append, List.length_cons, List.length_nil]
      omega
  · intro a b c d
    simpa using save_all_eq_drop 3 [a, b, c, d]

/-- Witness for C2 at `hmax = 3` with four concrete captures. -/
theorem c2_witness :
    save_all 3 [[0], [1], [2], [3]] = [[1], [2], [3]] ∧
    (save_screenshot_to_history 3 [[9]] [4]).length ≤ 3 :=
  ⟨(c2_history_bounded_fifo 3 []).2.2.2 [0] [1] [2] [3],
   (c2_history_bounded_fifo 3 []).2.2.1 [[9]] [4] (by decide)⟩

/-- Claim C3: every run of the background API worker — provider lookup
raising, analyze raising, analyze returning an empty result, or analyze
returning text — emits exactly one outcome on `api_response_signal`
(never zero, never two) and schedules exactly one history cleanup. -/
theorem c3_exactly_one_outcome (b : ProviderBehavior) :
    (async_api_worker b).emitted.length = 1 ∧
    (async_api_worker b).cleanupsScheduled = 1 := by
  cases b <;> simp [async_api_worker]

/-- Claim C4: a provider-adapter failure (from `get_service` or
`analyze_images`) is surfaced as the single error-marked outcome
`"错误: API调用异常: " + msg`; the worker never retries (exactly one
analyze call) and, being total, never crashes the process; the
orchestrator's handler recognises the marker, logs the error and renders
an error indication without touching the clipboard; and a subsequent
capture request proceeds (the gate reopens: `trigger_prompt` stores the
new pending prompt and emits the capture signal from any state). -/
theorem c4_provider_failure_surfaced (m : Str) (extract : Str → Str)
    (provider : String) (cap : Except Str Image) (p : Prompt) (s : AppState) :
    (async_api_worker (.analyzeRaises m)).emitted
        = ["错误: API调用异常: ".data ++ m] ∧
    (async_api_worker (.getServiceRaises m)).emitted
        = ["错误: API调用异常: ".data ++ m] ∧
    (async_api_worker (.analyzeRaises m)).analyzeCalls = 1 ∧
    handle_api_response extract ("错误: API调用异常: ".data ++ m)
        = [.logError ("错误: API调用异常: ".data ++ m),
           .renderError ("错误: API调用异常: ".data ++ m)] ∧
    (trigger_prompt true provider cap p s).state.pending = some p ∧
    (trigger_prompt true provider cap p s).signals
        = [.triggerScreenshot true] := by
  refine ⟨rfl, rfl, rfl, ?_, rfl, rfl⟩
  unfold handle_api_response
  rw [if_pos (err_marker_isPrefixOf m)]

/-- Claim C5: for a stream of chunks followed by a completion signal, the
finalized text is the concatenation of the chunks in arrival order; each
chunk only emits overlay content, and the stream finish, the completion
processing and the (spec-modelled) code-extraction-plus-clipboard step
each run exactly once, after the completion signal. -/
theorem c5_streaming_finalize_once (cs : List Str) (t : Str)
    (rest : List (Str × Bool)) :
    streaming_flow (cs.map (fun c => (c, false)) ++ (t, true) :: rest)
      = cs.map StreamAction.chunkEmit
        ++ [.finishStream, .processComplete cs.flatten,
            .extractClipboard cs.flatten] := by
  unfold streaming_flow
  rw [handle_streaming_append]
  simp

/-- Counterexample for C6: the claim says that when the interactive
selector fails to start and the one fallback capture also fails, the
request is abandoned with an error reported and no exception escapes,
with the pending prompt always released. In the code the fallback
`capture_screen()` runs inside the `except` block, so its failure
propagates out of `start_smart_screenshot` (first conjunct), and on a
successful fallback the dispatched request leaves `pending_prompt` set
(second conjunct: the post-state still carries the pending prompt). -/
theorem c6_counterexample :
    (start_smart_screenshot "Gemini" (.error ['b']) (.error ['f'])
        ⟨some ⟨"one", ['a']⟩, []⟩).outcome = .error ['f'] ∧
    (start_smart_screenshot "Gemini" (.error ['b']) (.ok [9])
        ⟨some ⟨"one", ['a']⟩, []⟩).outcome
      = .ok { state := ⟨some ⟨"one", ['a']⟩, []⟩, signals := [],
              dispatch := some ⟨[[9]], ⟨"one", ['a']⟩, "Gemini"⟩ } :=
  ⟨rfl, rfl⟩

/-- Claim C6 (amended): when the interactive selector fails to start and a
prompt is pending, exactly one synchronous fallback capture is attempted;
if the fallback itself raises, the exception propagates out of the
routine uncaught; if the fallback succeeds, the request is dispatched
with the history plus the fallback image while the pending prompt is not
released (it stays set — the selector callbacks are the only code that
clears it). -/
theorem c6_fallback_behaviour (provider : String) (e : Str)
    (cap : Except Str Image) (s : AppState) (p : Prompt)
    (h : s.pending = some p) :
    (start_smart_screenshot provider (.error e) cap s).captureCalls = 1 ∧
    (∀ msg, cap = .error msg →
      (start_smart_screenshot provider (.error e) cap s).outcome
        = .error msg) ∧
    (∀ png, cap = .ok png →
      (start_smart_screenshot provider (.error e) cap s).outcome
        = .ok { state := s, signals := [],
                dispatch := some ⟨s.history ++ [png], p, provider⟩ }) := by
  unfold start_smart_screenshot
  rw [h]
  cases cap <;>
    simp [process_prompt_with_screenshot]

/-- Witness for C6 on a concrete pending state with a failing selector. -/
theorem c6_witness :
    (start_smart_screenshot "Gemini" (.error ['x']) (.ok [7])
        ⟨some ⟨"w", ['c']⟩, [[5]]⟩).captureCalls = 1 ∧
    (start_smart_screenshot "Gemini" (.error ['x']) (.ok [7])
        ⟨some ⟨"w", ['c']⟩, [[5]]⟩).outcome
      = .ok { state := ⟨some ⟨"w", ['c']⟩, [[5]]⟩, signals := [],
              dispatch := some ⟨[[5], [7]], ⟨"w", ['c']⟩, "Gemini"⟩ } :=
  ⟨(c6_fallback_behaviour "Gemini" ['x'] (.ok [7])
      ⟨some ⟨"w", ['c']⟩, [[5]]⟩ ⟨"w", ['c']⟩ rfl).1,
   (c6_fallback_behaviour "Gemini" ['x'] (.ok [7])
      ⟨some ⟨"w", ['c']⟩, [[5]]⟩ ⟨"w", ['c']⟩ rfl).2.2 [7] rfl⟩

/-- Counterexample for C7: the claim says the current image is appended to
the HistoryStore before dispatch. In the code the successful-capture
callback dispatches `history + [current]` but never appends the current
image to `screenshot_history`, which is left unchanged. -/
theorem c7_counterexample :
    (on_screenshot_taken "Gemini" [7]
        ⟨some ⟨"one", ['a']⟩, [[1], [2]]⟩).1.history = [[1], [2]] ∧
    (on_screenshot_taken "Gemini" [7]
        ⟨some ⟨"one", ['a']⟩, [[1], [2]]⟩).1.history ≠ [[1], [2], [7]] ∧
    (on_screenshot_taken "Gemini" [7]
        ⟨some ⟨"one", ['a']⟩, [[1], [2]]⟩).2
      = some ⟨[[1], [2], [7]], ⟨"one", ['a']⟩, "Gemini"⟩ := by
  refine ⟨rfl, ?_, rfl⟩
  decide

/-- Claim C7 (amended): on a successful prompt-bearing capture the
dispatched request is exactly the history's images followed by the
current capture, in capture order, but the current image is not appended
to the HistoryStore — the history is unchanged and only the pending
prompt is cleared. -/
theorem c7_dispatch_images (provider : String) (png : Image) (s : AppState)
    (p : Prompt) (h : s.pending = some p) :
    on_screenshot_taken provider png s
      = ({ s with pending := none },
         some ⟨s.history ++ [png], p, provider⟩) := by
  unfold on_screenshot_taken
  rw [h]
  rfl

/-- Witness for C7 on a concrete pending state. -/
theorem c7_witness :
    on_screenshot_taken "GPT" [7] ⟨some ⟨"w", ['c']⟩, [[1], [2]]⟩
      = (⟨none, [[1], [2]]⟩,
         some ⟨[[1], [2], [7]], ⟨"w", ['c']⟩, "GPT"⟩) :=
  c7_dispatch_images "GPT" [7] ⟨some ⟨"w", ['c']⟩, [[1], [2]]⟩
    ⟨"w", ['c']⟩ rfl

/-- Counterexample for C8: the claim says an out-of-range stored index is
reset to 0 both in memory and in the persisted configuration whenever the
prompts list is read. `update_current_prompt_display` reads the prompts
with index 5 out of range, resets only the in-memory index and writes
nothing to configuration. -/
theorem c8_counterexample :
    update_current_prompt_display [⟨"one", ['a']⟩] 5
      = (0, none, some ⟨"one", ['a']⟩) ∧
    (update_current_prompt_display [⟨"one", ['a']⟩] 5).2.1 ≠ some 0 := by
  refine ⟨?_, ?_⟩ <;> simp [update_current_prompt_display]

/-- Claim C8 (amended): with a nonempty prompts list, an in-range stored
index is used unchanged by both readers; an out-of-range index is reset
to 0 in memory and the operation proceeds with the first prompt in both
readers, but the reset is persisted to configuration only by
`send_current_prompt` — `update_current_prompt_display` performs no
configuration write. -/
theorem c8_index_reset (prompts : List Prompt) (idx : Int)
    (h : prompts ≠ []) :
    ((0 ≤ idx ∧ idx < prompts.length) →
      send_current_prompt prompts idx = (idx, none, prompts[idx.toNat]?) ∧
      update_current_prompt_display prompts idx
        = (idx, none, prompts[idx.toNat]?)) ∧
    (¬(0 ≤ idx ∧ idx < prompts.length) →
      send_current_prompt prompts idx = (0, some 0, prompts[0]?) ∧
      update_current_prompt_display prompts idx
        = (0, none, prompts[0]?)) := by
  constructor <;> intro hr <;>
    simp [send_current_prompt, update_current_prompt_display, h, hr]

/-- Witness for C8 with one prompt and the out-of-range stored index 5. -/
theorem c8_witness :
    ([⟨"one", ['a']⟩] : List Prompt) ≠ [] ∧
    send_current_prompt [⟨"one", ['a']⟩] 5 = (0, some 0, some ⟨"one", ['a']⟩) ∧
    update_current_prompt_display [⟨"one", ['a']⟩] 5
      = (0, none, some ⟨"one", ['a']⟩) := by
  refine ⟨by decide, ?_⟩
  simpa using (c8_index_reset [⟨"one", ['a']⟩] 5 (by decide)).2 (by decide)

/-- Claim C9: clearing the screenshot history always leaves an empty
store, a second clear is a no-op, and clearing an already empty store
(both in the hotkey handler and in the post-request cleanup) returns
early with no size-delta report and, the functions being total, no
exception. -/
theorem c9_clear_idempotent (h : List Image) :
    (clear_screenshot_history h).1 = [] ∧
    clear_screenshot_history (clear_screenshot_history h).1 = ([], none) ∧
    clear_screenshot_history [] = ([], none) ∧
    cleanup_screenshot_history [] = ([], none) := by
  by_cases hh : h = [] <;>
    simp [clear_screenshot_history, cleanup_screenshot_history, hh]

/-- Claim C10: one provider toggle maps Gemini to GPT and GPT to Gemini,
so two toggles restore any member of the two-member set; any value other
than Gemini is mapped to Gemini by one toggle, so a configured value
outside the two-member set is not restored by two toggles. -/
theorem c10_toggle_involution :
    handle_toggle_provider "Gemini" = "GPT" ∧
    handle_toggle_provider "GPT" = "Gemini" ∧
    (∀ s, s = "Gemini" ∨ s = "GPT" →
      handle_toggle_provider (handle_toggle_provider s) = s) ∧
    (∀ s, s ≠ "Gemini" → handle_toggle_provider s = "Gemini") ∧
    (∀ s, s ≠ "Gemini" → s ≠ "GPT" →
      handle_toggle_provider (handle_toggle_provider s) ≠ s) := by
  refine ⟨by decide, by decide, ?_, ?_, ?_⟩
  · rintro s (rfl | rfl) <;> decide
  · intro s hs
    simp [handle_toggle_provider, hs]
  · intro s hs hs2
    simp only [handle_toggle_provider, if_neg hs, if_pos rfl]
    exact fun e => hs2 e.symm

/-- Witness for C10 at the out-of-set provider value Claude. -/
theorem c10_witness :
    handle_toggle_provider "Claude" = "Gemini" ∧
    handle_toggle_provider (handle_toggle_provider "Claude") ≠ "Claude" ∧
    handle_toggle_provider (handle_toggle_provider "Gemini") = "Gemini" :=
  ⟨c10_toggle_involution.2.2.2.1 "Claude" (by decide),
   c10_toggle_involution.2.2.2.2 "Claude" (by decide) (by decide),
   c10_toggle_involution.2.2.1 "Gemini" (Or.inl rfl)⟩
